import Mathlib

/-!
Shallow embedding of the questionnaire recommendation engine of `app.py`
(repository `ndmx/upscale`) and of the session-token format guard of the
`/results/<session_id>` route, together with theorems settling the spec
claims about them.

Modelling conventions:
* Python dicts of responses are modelled as association lists
  `List (String × Answer)` iterated in order; the per-track score
  accumulator dict `scores` is the structure `Scores` (its three keys, in
  insertion order `cyber, data, web`, are the fields).
* Python form values are either a string, a list of strings, or `None`
  (the `questionnaire_submit` handler inserts `None` for a missing single
  answer); the inductive `Answer` covers the three shapes.
* The percentage `min(int((max_score / total_possible) * 100), 99)` is
  modelled with exact natural-number arithmetic
  `min (max_score * 100 / total_possible) 99`.  The Python expression uses
  IEEE-754 doubles; the two disagree only for `max_score ≥ 92`, where both
  are already above the cap, so after `min _ 99` the modelled value equals
  the Python value for every `max_score`.
* `re.match(r'^[A-Za-z0-9_-]+$', s)` follows Python semantics of `$`,
  which also matches just before a newline that is the last character of
  the string.
-/

namespace Upscale

/-- The three course tracks, in the fixed order in which the source builds
the `scores` dict: `'Cybersecurity with AI'`, `'Data Engineering for AI'`,
`'Web App Development with AI'`. -/
inductive Track where
  | cyber : Track
  | data : Track
  | web : Track
deriving DecidableEq, Repr, Fintype

/-- The course-title string each track key carries in the source. -/
def Track.title : Track → String
  | .cyber => "Cybersecurity with AI"
  | .data => "Data Engineering for AI"
  | .web => "Web App Development with AI"

/-- Position of a track in the enumeration order of the `scores` dict. -/
def Track.idx : Track → Nat
  | .cyber => 0
  | .data => 1
  | .web => 2

/-- The per-track score accumulator: the dict
`{'Cybersecurity with AI': _, 'Data Engineering for AI': _, 'Web App Development with AI': _}`. -/
structure Scores where
  cyber : Nat
  data : Nat
  web : Nat
deriving DecidableEq, Repr

instance : Add Scores :=
  ⟨fun a b => ⟨a.cyber + b.cyber, a.data + b.data, a.web + b.web⟩⟩

def Scores.get : Scores → Track → Nat
  | s, .cyber => s.cyber
  | s, .data => s.data
  | s, .web => s.web

/-- Question cardinality: the `"type"` field of a question. -/
inductive QType where
  | single : QType
  | multiple : QType
deriving DecidableEq, Repr

/-- One selectable option of a question: its `value` and its score vector
(the `cyber` / `data` / `web` entries).  The display `label` strings are
not read by the scoring code and are omitted. -/
structure QOption where
  value : String
  cyber : Nat
  data : Nat
  web : Nat
deriving DecidableEq, Repr

/-- A question of the bank: its `id`, its `type` and its options.  The
`section` and `question` display strings are not read by the scoring code
and are omitted. -/
structure Question where
  id : String
  qtype : QType
  options : List QOption
deriving DecidableEq, Repr

/-- The static question bank `QUESTIONNAIRE_QUESTIONS` of `app.py`
(ids, types, option values and score vectors transcribed verbatim). -/
def QUESTIONNAIRE_QUESTIONS : List Question := [
  ⟨"q1", .single, [
    ⟨"absolute_beginner", 0, 0, 0⟩,
    ⟨"some_basics", 1, 2, 3⟩,
    ⟨"intermediate", 2, 3, 3⟩,
    ⟨"advanced", 3, 3, 3⟩]⟩,
  ⟨"q2", .single, [
    ⟨"never", 0, 0, 0⟩,
    ⟨"online_tutorials", 1, 1, 1⟩,
    ⟨"bootcamp", 2, 2, 2⟩,
    ⟨"degree", 3, 3, 2⟩]⟩,
  ⟨"q3", .multiple, [
    ⟨"excel_data", 0, 3, 0⟩,
    ⟨"python", 2, 3, 2⟩,
    ⟨"javascript", 1, 1, 3⟩,
    ⟨"databases", 1, 3, 2⟩,
    ⟨"security_tools", 3, 0, 0⟩,
    ⟨"none", 0, 0, 0⟩]⟩,
  ⟨"q4", .single, [
    ⟨"protecting_systems", 5, 0, 0⟩,
    ⟨"analyzing_data", 0, 5, 1⟩,
    ⟨"building_apps", 0, 1, 5⟩,
    ⟨"ai_ml", 2, 4, 2⟩]⟩,
  ⟨"q5", .single, [
    ⟨"security_operations", 5, 0, 0⟩,
    ⟨"data_analysis", 0, 5, 0⟩,
    ⟨"creative_design", 0, 0, 5⟩,
    ⟨"problem_solving", 3, 3, 3⟩]⟩,
  ⟨"q6", .single, [
    ⟨"security_puzzles", 5, 1, 1⟩,
    ⟨"data_insights", 1, 5, 1⟩,
    ⟨"user_experience", 0, 1, 5⟩,
    ⟨"system_architecture", 2, 3, 3⟩]⟩,
  ⟨"q7", .single, [
    ⟨"security_specialist", 5, 0, 0⟩,
    ⟨"data_scientist", 0, 5, 0⟩,
    ⟨"fullstack_dev", 0, 1, 5⟩,
    ⟨"tech_entrepreneur", 1, 2, 4⟩]⟩,
  ⟨"q8", .multiple, [
    ⟨"networking", 3, 1, 1⟩,
    ⟨"programming", 2, 3, 3⟩,
    ⟨"data_analysis", 1, 3, 1⟩,
    ⟨"web_design", 0, 0, 3⟩,
    ⟨"problem_solving", 2, 3, 2⟩,
    ⟨"none_yet", 0, 0, 0⟩]⟩,
  ⟨"q9", .single, [
    ⟨"hands_on", 2, 2, 3⟩,
    ⟨"theory_first", 3, 3, 1⟩,
    ⟨"video_tutorials", 1, 2, 2⟩,
    ⟨"mixed", 2, 2, 2⟩]⟩,
  ⟨"q10", .single, [
    ⟨"less_5", 0, 0, 0⟩,
    ⟨"5_10", 1, 1, 1⟩,
    ⟨"10_20", 2, 2, 2⟩,
    ⟨"20_plus", 3, 3, 3⟩]⟩,
  ⟨"q11", .single, [
    ⟨"detective", 5, 2, 1⟩,
    ⟨"analyst", 1, 5, 2⟩,
    ⟨"builder", 1, 2, 5⟩,
    ⟨"researcher", 3, 3, 3⟩]⟩,
  ⟨"q12", .single, [
    ⟨"security_analyst", 5, 0, 0⟩,
    ⟨"data_engineer", 0, 5, 0⟩,
    ⟨"web_developer", 0, 1, 5⟩,
    ⟨"ml_engineer", 1, 5, 1⟩]⟩,
  ⟨"q13", .single, [
    ⟨"fintech", 4, 3, 3⟩,
    ⟨"cybersecurity", 5, 1, 0⟩,
    ⟨"tech_startups", 2, 3, 5⟩,
    ⟨"ecommerce", 2, 3, 4⟩]⟩,
  ⟨"q14", .single, [
    ⟨"entry", 1, 1, 1⟩,
    ⟨"mid", 2, 2, 2⟩,
    ⟨"senior", 3, 3, 3⟩,
    ⟨"lead", 3, 3, 3⟩]⟩,
  ⟨"q15", .single, [
    ⟨"lagos", 2, 2, 2⟩,
    ⟨"accra", 1, 1, 2⟩,
    ⟨"remote", 2, 3, 3⟩,
    ⟨"flexible", 2, 2, 2⟩]⟩,
  ⟨"q16", .single, [
    ⟨"career_change", 2, 2, 2⟩,
    ⟨"job_security", 3, 2, 2⟩,
    ⟨"passion", 2, 2, 3⟩,
    ⟨"entrepreneurship", 1, 2, 4⟩]⟩]

/-- A submitted form value: a string, a list of strings, or Python `None`. -/
inductive Answer where
  | vStr : String → Answer
  | vList : List String → Answer
  | vNone : Answer
deriving DecidableEq, Repr

/-- A visitor's responses: the `responses` dict, as an association list
from question id to answer, iterated in insertion order. -/
abbrev ResponseSet := List (String × Answer)

/-- `next((q for q in QUESTIONNAIRE_QUESTIONS if q['id'] == question_id), None)`. -/
def findQuestion (question_id : String) : Option Question :=
  QUESTIONNAIRE_QUESTIONS.find? (fun q => q.id == question_id)

/-- `next((opt for opt in question['options'] if opt['value'] == v), None)`. -/
def findOpt (q : Question) (v : String) : Option QOption :=
  q.options.find? (fun opt => opt.value == v)

/-- The score vector of an option, as a `Scores` triple. -/
def optScores (opt : QOption) : Scores := ⟨opt.cyber, opt.data, opt.web⟩

/-- The inner loop body of the `multiple` branch: resolve one value and,
if it matches an option, add that option's score vector. -/
def addOption (q : Question) (scores : Scores) (v : String) : Scores :=
  match findOpt q v with
  | some opt => scores + optScores opt
  | none => scores

/-- One iteration of the `for question_id, answer in responses.items()`
loop of `calculate_course_recommendation`: resolve the question, then
dispatch on its type and the shape of the answer. -/
def applyEntry (scores : Scores) (question_id : String) (answer : Answer) : Scores :=
  match findQuestion question_id with
  | none => scores
  | some q =>
    match q.qtype, answer with
    | .single, .vStr v =>
      match findOpt q v with
      | some opt => scores + optScores opt
      | none => scores
    | .multiple, .vList l => l.foldl (addOption q) scores
    | _, _ => scores

/-- The accumulated per-track scores after the response loop of
`calculate_course_recommendation`. -/
def scoresOf (responses : ResponseSet) : Scores :=
  responses.foldl (fun acc e => applyEntry acc e.1 e.2) ⟨0, 0, 0⟩

/-- `max(scores.values())`. -/
def maxScore (s : Scores) : Nat := max s.cyber (max s.data s.web)

/-- `max(scores, key=scores.get)`: Python `max` scans the keys in the
dict's insertion order (`cyber`, `data`, `web`) and replaces the current
best only on a strictly greater score, so it returns the first key
attaining the maximum. -/
def argmaxTrack (s : Scores) : Track :=
  if s.data > s.cyber then
    if s.web > s.data then .web else .data
  else
    if s.web > s.cyber then .web else .cyber

/-- `total_possible = len(QUESTIONNAIRE_QUESTIONS) * 5`. -/
def totalPossible : Nat := QUESTIONNAIRE_QUESTIONS.length * 5

/-- `min(int((max_score / total_possible) * 100), 99)`, in exact natural
arithmetic (equal to the Python float computation after the cap; see the
module docstring). -/
def matchPercentageOf (max_score : Nat) : Nat :=
  min (max_score * 100 / totalPossible) 99

/-- `calculate_course_recommendation(responses)`: returns the tuple
`(recommended_course, match_percentage, scores)`. -/
def calculate_course_recommendation (responses : ResponseSet) :
    String × Nat × Scores :=
  let scores := scoresOf responses
  let max_score := maxScore scores
  if max_score = 0 then
    ("Web App Development with AI", 60, scores)
  else
    ((argmaxTrack scores).title, matchPercentageOf max_score, scores)

/-- Membership in the character class `[A-Za-z0-9_-]`. -/
def tokenChar (c : Char) : Bool :=
  ('A' ≤ c && c ≤ 'Z') || ('a' ≤ c && c ≤ 'z') || ('0' ≤ c && c ≤ '9')
    || c == '_' || c == '-'

/-- Truthiness of `re.match(r'^[A-Za-z0-9_-]+$', s)` under Python `re`
semantics: `$` matches at the end of the string, or just before a newline
that is the string's last character.  So the regex matches iff `s` is a
nonempty run of class characters, or such a run followed by one final
newline. -/
def pyMatchToken (s : String) : Bool :=
  (!s.data.isEmpty && s.data.all tokenChar)
    || (s.data.getLast? == some '\n' && !s.data.dropLast.isEmpty
          && s.data.dropLast.all tokenChar)

/-- Outcome of the guard at the top of the `questionnaire_results` route:
either the request is aborted with 404 before touching the store, or the
token is passed on to the `QuestionnaireResponse` store query. -/
inductive TokenLookup where
  | notFound : TokenLookup
  | storeQuery : String → TokenLookup
deriving DecidableEq, Repr

/-- `if not session_id or len(session_id) > 100 or not re.match(r'^[A-Za-z0-9_-]+$', session_id): abort(404)`
followed by the store query on the surviving token. -/
def questionnaire_results_guard (session_id : String) : TokenLookup :=
  if session_id == "" || 100 < session_id.length || !pyMatchToken session_id then
    .notFound
  else
    .storeQuery session_id

/-! ### Derived notions used by the specification claims -/

/-- The score vector one resolved value contributes (zero when the value
matches no option of the question). -/
def optDelta (q : Question) (v : String) : Scores :=
  match findOpt q v with
  | some opt => optScores opt
  | none => ⟨0, 0, 0⟩

/-- The contribution of a single response entry to the accumulator. -/
def entryDelta (e : String × Answer) : Scores :=
  applyEntry ⟨0, 0, 0⟩ e.1 e.2

/-- The first track, in the enumeration order `cyber, data, web` of the
`scores` dict, whose accumulated score attains the maximum. -/
def firstMaxTrack (s : Scores) : Track :=
  if s.cyber = maxScore s then .cyber
  else if s.data = maxScore s then .data
  else .web

/-! ### Score-accumulator lemmas -/

theorem Scores.get_add (a b : Scores) (t : Track) :
    (a + b).get t = a.get t + b.get t := by
  cases t <;> rfl

theorem Scores.get_zero (t : Track) : (Scores.mk 0 0 0).get t = 0 := by
  cases t <;> rfl

theorem Scores.ext_get {a b : Scores} (h : ∀ t, a.get t = b.get t) : a = b := by
  cases a with
  | mk ac ad aw =>
    cases b with
    | mk bc bd bw =>
      have h1 := h .cyber
      have h2 := h .data
      have h3 := h .web
      simp only [Scores.get] at h1 h2 h3
      rw [h1, h2, h3]

theorem addOption_get (q : Question) (s : Scores) (v : String) (t : Track) :
    (addOption q s v).get t = s.get t + (optDelta q v).get t := by
  unfold addOption optDelta
  cases findOpt q v <;> simp [Scores.get_add, Scores.get_zero]

theorem foldl_addOption_get (q : Question) (l : List String) (s : Scores) (t : Track) :
    (l.foldl (addOption q) s).get t
      = s.get t + (l.map fun v => (optDelta q v).get t).sum := by
  induction l generalizing s with
  | nil => simp
  | cons v l ih => simp [List.foldl_cons, ih, addOption_get, Nat.add_assoc]

theorem applyEntry_get (s : Scores) (qid : String) (a : Answer) (t : Track) :
    (applyEntry s qid a).get t = s.get t + (entryDelta (qid, a)).get t := by
  unfold entryDelta applyEntry
  cases hq : findQuestion qid with
  | none => simp [Scores.get_zero]
  | some q =>
    cases hty : q.qtype with
    | single =>
      cases a with
      | vStr v =>
        cases ho : findOpt q v with
        | none => simp [hty, ho, Scores.get_zero]
        | some opt => simp [hty, ho, Scores.get_add, Scores.get_zero]
      | vList l => simp [hty, Scores.get_zero]
      | vNone => simp [hty, Scores.get_zero]
    | multiple =>
      cases a with
      | vStr v => simp [hty, Scores.get_zero]
      | vList l =>
        simp only [hty]
        rw [foldl_addOption_get, foldl_addOption_get]
        simp [Scores.get_zero]
      | vNone => simp [hty, Scores.get_zero]

theorem scoresOf_get (r : ResponseSet) (t : Track) :
    (scoresOf r).get t = (r.map fun e => (entryDelta e).get t).sum := by
  suffices h : ∀ s : Scores,
      ((r.foldl (fun acc e => applyEntry acc e.1 e.2) s).get t)
        = s.get t + (r.map fun e => (entryDelta e).get t).sum by
    simpa [scoresOf, Scores.get_zero] using h ⟨0, 0, 0⟩
  induction r with
  | nil => intro s; simp
  | cons e r ih => intro s; simp [List.foldl_cons, ih, applyEntry_get, Nat.add_assoc]

theorem scoresOf_append_get (r₁ r₂ : ResponseSet) (t : Track) :
    (scoresOf (r₁ ++ r₂)).get t = (scoresOf r₁).get t + (scoresOf r₂).get t := by
  simp [scoresOf_get]

theorem get_le_maxScore (s : Scores) (t : Track) : s.get t ≤ maxScore s := by
  cases t <;> simp [Scores.get, maxScore] <;> omega

theorem exists_get_eq_maxScore (s : Scores) : ∃ t, s.get t = maxScore s := by
  rcases Nat.le_total s.data s.web with h | h
  · rcases Nat.le_total s.cyber s.web with h2 | h2
    · exact ⟨.web, by simp [Scores.get, maxScore]; omega⟩
    · exact ⟨.cyber, by simp [Scores.get, maxScore]; omega⟩
  · rcases Nat.le_total s.cyber s.data with h2 | h2
    · exact ⟨.data, by simp [Scores.get, maxScore]; omega⟩
    · exact ⟨.cyber, by simp [Scores.get, maxScore]; omega⟩

theorem maxScore_eq_zero_iff (s : Scores) :
    maxScore s = 0 ↔ ∀ t, s.get t = 0 := by
  constructor
  · intro h t
    have := get_le_maxScore s t
    omega
  · intro h
    have hc := h .cyber
    have hd := h .data
    have hw := h .web
    simp only [Scores.get] at hc hd hw
    simp [maxScore, hc, hd, hw]

theorem argmaxTrack_eq_firstMaxTrack (s : Scores) :
    argmaxTrack s = firstMaxTrack s := by
  unfold argmaxTrack firstMaxTrack maxScore
  split_ifs <;> first | rfl | (exfalso; omega)

theorem firstMaxTrack_get (s : Scores) :
    s.get (firstMaxTrack s) = maxScore s := by
  unfold firstMaxTrack
  split_ifs with h1 h2
  · simpa [Scores.get] using h1
  · simpa [Scores.get] using h2
  · obtain ⟨t, ht⟩ := exists_get_eq_maxScore s
    cases t with
    | cyber => simp only [Scores.get] at ht; exact absurd ht h1
    | data => simp only [Scores.get] at ht; exact absurd ht h2
    | web => simpa [Scores.get] using ht

theorem firstMaxTrack_earlier (s : Scores) (t : Track)
    (h : t.idx < (firstMaxTrack s).idx) : s.get t ≠ maxScore s := by
  unfold firstMaxTrack at h
  split_ifs at h with h1 h2
  · simp [Track.idx] at h
  · cases t with
    | cyber => simpa [Scores.get] using h1
    | data => simp [Track.idx] at h
    | web => simp [Track.idx] at h
  · cases t with
    | cyber => simpa [Scores.get] using h1
    | data => simpa [Scores.get] using h2
    | web => simp [Track.idx] at h

theorem calc_congr {r₁ r₂ : ResponseSet}
    (h : scoresOf r₁ = scoresOf r₂) :
    calculate_course_recommendation r₁ = calculate_course_recommendation r₂ := by
  unfold calculate_course_recommendation
  rw [h]

/-! ### Unresolvable-entry cleanup (claim C5) -/

/-- Whether a value resolves to an option of the question. -/
def resolvableValue (q : Question) (v : String) : Bool :=
  (findOpt q v).isSome

/-- Drop what `calculate_course_recommendation` silently skips: entries
whose question id is unknown, entries whose value resolves to no option,
and (inside a `multiple` list) the individual unresolvable values. -/
def cleanupEntry (e : String × Answer) : Option (String × Answer) :=
  match findQuestion e.1 with
  | none => none
  | some q =>
    match q.qtype, e.2 with
    | .single, .vStr v => if resolvableValue q v then some e else none
    | .multiple, .vList l =>
      some (e.1, .vList (l.filter fun v => resolvableValue q v))
    | _, _ => none

/-- A response set with every unresolvable entry/value removed. -/
def removeUnresolvable (r : ResponseSet) : ResponseSet :=
  r.filterMap cleanupEntry

theorem optDelta_of_not_resolvable {q : Question} {v : String}
    (h : resolvableValue q v = false) : optDelta q v = ⟨0, 0, 0⟩ := by
  unfold resolvableValue at h
  unfold optDelta
  cases ho : findOpt q v with
  | none => rfl
  | some opt => rw [ho] at h; simp at h

theorem sum_optDelta_filter (q : Question) (l : List String) (t : Track) :
    ((l.filter fun v => resolvableValue q v).map
        fun v => (optDelta q v).get t).sum
      = (l.map fun v => (optDelta q v).get t).sum := by
  induction l with
  | nil => rfl
  | cons v l ih =>
    cases hv : resolvableValue q v with
    | true => simp [List.filter_cons, hv, ih]
    | false =>
      simp [List.filter_cons, hv, ih, optDelta_of_not_resolvable hv,
        Scores.get_zero]

theorem entryDelta_cleanupEntry (e : String × Answer) (t : Track) :
    (entryDelta e).get t
      = ((cleanupEntry e).map fun f => (entryDelta f).get t).getD 0 := by
  obtain ⟨qid, a⟩ := e
  unfold cleanupEntry entryDelta applyEntry
  cases hq : findQuestion qid with
  | none => simp [Scores.get_zero]
  | some q =>
    cases hty : q.qtype with
    | single =>
      cases a with
      | vStr v =>
        cases hv : resolvableValue q v with
        | true => simp [hty, hv, hq]
        | false =>
          have ho : findOpt q v = none := by
            unfold resolvableValue at hv
            cases ho : findOpt q v with
            | none => rfl
            | some opt => rw [ho] at hv; simp at hv
          simp [hty, hv, ho, Scores.get_zero]
      | vList l => simp [hty, Scores.get_zero]
      | vNone => simp [hty, Scores.get_zero]
    | multiple =>
      cases a with
      | vStr v => simp [hty, Scores.get_zero]
      | vList l =>
        simp only [hty, Option.map_some', Option.getD_some, hq]
        rw [foldl_addOption_get, foldl_addOption_get]
        simp [Scores.get_zero, sum_optDelta_filter]
      | vNone => simp [hty, Scores.get_zero]

theorem scoresOf_removeUnresolvable (r : ResponseSet) (t : Track) :
    (scoresOf (removeUnresolvable r)).get t = (scoresOf r).get t := by
  rw [scoresOf_get, scoresOf_get, removeUnresolvable]
  induction r with
  | nil => rfl
  | cons e r ih =>
    cases he : cleanupEntry e with
    | none =>
      have h0 := entryDelta_cleanupEntry e t
      rw [he] at h0
      simp at h0
      simp [List.filterMap_cons, he, ih, h0]
    | some f =>
      have h0 := entryDelta_cleanupEntry e t
      rw [he] at h0
      simp at h0
      simp [List.filterMap_cons, he, ih, h0]

/-! ### Token-regex lemmas (claim C9) -/

theorem pyMatchToken_false_of_bad_dropLast {s : String} {c : Char}
    (hc : c ∈ s.data.dropLast) (hbad : tokenChar c = false) :
    pyMatchToken s = false := by
  have hmem : c ∈ s.data := (List.dropLast_sublist s.data).subset hc
  have h1 : s.data.all tokenChar = false := by
    rw [List.all_eq_false]
    exact ⟨c, hmem, by simp [hbad]⟩
  have h2 : s.data.dropLast.all tokenChar = false := by
    rw [List.all_eq_false]
    exact ⟨c, hc, by simp [hbad]⟩
  simp [pyMatchToken, h1, h2]

theorem pyMatchToken_false_of_bad_last {s : String} {c : Char}
    (hl : s.data.getLast? = some c) (hbad : tokenChar c = false)
    (hne : c ≠ '\n') : pyMatchToken s = false := by
  have hmem : c ∈ s.data := List.mem_of_mem_getLast? hl
  have h1 : s.data.all tokenChar = false := by
    rw [List.all_eq_false]
    exact ⟨c, hmem, by simp [hbad]⟩
  have h2 : (s.data.getLast? == some '\n') = false := by
    simp [hl, hne]
  simp [pyMatchToken, h1, h2]

theorem pyMatchToken_false_of_lone_newline {s : String}
    (hl : s.data.getLast? = some '\n') (hd : s.data.dropLast = []) :
    pyMatchToken s = false := by
  have hmem : '\n' ∈ s.data := List.mem_of_mem_getLast? hl
  have h1 : s.data.all tokenChar = false := by
    rw [List.all_eq_false]
    exact ⟨'\n', hmem, by decide⟩
  simp [pyMatchToken, h1, hd]

/-! ### Claim theorems -/

/-- Claim C1: whenever the accumulated per-track scores are not all zero,
`calculate_course_recommendation` returns
`match_percentage = min(floor(winning_score / total_possible * 100), 99)`,
where the winning score is the maximum accumulated track score and
`total_possible = len(QUESTIONNAIRE_QUESTIONS) * 5 = 16 * 5 = 80`, the
flat per-question constant. -/
theorem calcRec_match_percentage_formula (r : ResponseSet)
    (h : scoresOf r ≠ Scores.mk 0 0 0) :
    (calculate_course_recommendation r).2.1
        = min (maxScore (scoresOf r) * 100 / totalPossible) 99
      ∧ (∀ t, (scoresOf r).get t ≤ maxScore (scoresOf r))
      ∧ (∃ t, (scoresOf r).get t = maxScore (scoresOf r))
      ∧ totalPossible = QUESTIONNAIRE_QUESTIONS.length * 5
      ∧ QUESTIONNAIRE_QUESTIONS.length = 16 := by
  have hmx : maxScore (scoresOf r) ≠ 0 := by
    intro h0
    have hall := (maxScore_eq_zero_iff _).mp h0
    exact h (Scores.ext_get fun t => by rw [hall t, Scores.get_zero])
  refine ⟨?_, fun t => get_le_maxScore _ t, exists_get_eq_maxScore _, rfl,
    by decide⟩
  simp [calculate_course_recommendation, matchPercentageOf, hmx]

/-- Witness for C1 at the single response `q4 = protecting_systems`,
whose accumulated scores are `(5, 0, 0)`. -/
theorem calcRec_match_percentage_formula_witness :
    scoresOf [("q4", Answer.vStr "protecting_systems")] ≠ Scores.mk 0 0 0
      ∧ ((calculate_course_recommendation
            [("q4", Answer.vStr "protecting_systems")]).2.1
          = min (maxScore (scoresOf
              [("q4", Answer.vStr "protecting_systems")]) * 100 / totalPossible) 99
        ∧ (∀ t, (scoresOf [("q4", Answer.vStr "protecting_systems")]).get t
            ≤ maxScore (scoresOf [("q4", Answer.vStr "protecting_systems")]))
        ∧ (∃ t, (scoresOf [("q4", Answer.vStr "protecting_systems")]).get t
            = maxScore (scoresOf [("q4", Answer.vStr "protecting_systems")]))
        ∧ totalPossible = QUESTIONNAIRE_QUESTIONS.length * 5
        ∧ QUESTIONNAIRE_QUESTIONS.length = 16) :=
  ⟨by decide,
    calcRec_match_percentage_formula [("q4", Answer.vStr "protecting_systems")]
      (by decide)⟩

/-- Claim C2: when every track's accumulated score is zero (as for the empty
response set, or one whose entries are all unresolvable),
`calculate_course_recommendation` returns the default track
`'Web App Development with AI'`, percentage exactly 60, and the all-zero
score map, without entering the max-selection branch. -/
theorem calcRec_zero_scores_default (r : ResponseSet)
    (h : ∀ t, (scoresOf r).get t = 0) :
    calculate_course_recommendation r
      = ("Web App Development with AI", 60, Scores.mk 0 0 0) := by
  have hs : scoresOf r = ⟨0, 0, 0⟩ :=
    Scores.ext_get fun t => by rw [h t, Scores.get_zero]
  simp [calculate_course_recommendation, hs, maxScore]

/-- Witness for C2 at the empty response set. -/
theorem calcRec_zero_scores_default_witness :
    (∀ t, (scoresOf []).get t = 0)
      ∧ calculate_course_recommendation []
          = ("Web App Development with AI", 60, Scores.mk 0 0 0) :=
  ⟨by decide, calcRec_zero_scores_default [] (by decide)⟩

/-- Claim C3: when the (nonzero) maximum is attained by two or more tracks, the
winner is always the first of the tied tracks in the fixed enumeration
order `Cybersecurity with AI, Data Engineering for AI, Web App Development
with AI` of the score dict: the returned title is that of the first track
attaining the maximum, that track attains the maximum, and every track
strictly earlier in the enumeration does not. -/
theorem calcRec_tie_break_enumeration_order (r : ResponseSet)
    (t u : Track) (hne : t ≠ u)
    (hmax : maxScore (scoresOf r) ≠ 0)
    (ht : (scoresOf r).get t = maxScore (scoresOf r))
    (hu : (scoresOf r).get u = maxScore (scoresOf r)) :
    (calculate_course_recommendation r).1
        = (firstMaxTrack (scoresOf r)).title
      ∧ (scoresOf r).get (firstMaxTrack (scoresOf r)) = maxScore (scoresOf r)
      ∧ ∀ t' : Track, t'.idx < (firstMaxTrack (scoresOf r)).idx →
          (scoresOf r).get t' ≠ maxScore (scoresOf r) := by
  refine ⟨?_, firstMaxTrack_get _, fun t' h' => firstMaxTrack_earlier _ t' h'⟩
  simp [calculate_course_recommendation, hmax, argmaxTrack_eq_firstMaxTrack]

/-- Witness for C3 at the responses `q4 = analyzing_data`,
`q6 = user_experience`, whose scores `(0, 6, 6)` tie data and web; the
winner is the data track. -/
theorem calcRec_tie_break_enumeration_order_witness :
    Track.data ≠ Track.web
      ∧ maxScore (scoresOf [("q4", Answer.vStr "analyzing_data"),
          ("q6", Answer.vStr "user_experience")]) ≠ 0
      ∧ (scoresOf [("q4", Answer.vStr "analyzing_data"),
          ("q6", Answer.vStr "user_experience")]).get Track.data
          = maxScore (scoresOf [("q4", Answer.vStr "analyzing_data"),
              ("q6", Answer.vStr "user_experience")])
      ∧ (calculate_course_recommendation [("q4", Answer.vStr "analyzing_data"),
            ("q6", Answer.vStr "user_experience")]).1
          = (firstMaxTrack (scoresOf [("q4", Answer.vStr "analyzing_data"),
              ("q6", Answer.vStr "user_experience")])).title :=
  ⟨by decide, by decide, by decide,
    (calcRec_tie_break_enumeration_order
        [("q4", Answer.vStr "analyzing_data"),
          ("q6", Answer.vStr "user_experience")]
        Track.data Track.web (by decide) (by decide) (by decide)
        (by decide)).1⟩

/-- Claim C4: the returned match percentage is a natural number (hence `≥ 0`),
is at most 99 on every input, equals 60 exactly in the all-zero default
branch and `min(floor(winning_score / total_possible * 100), 99)` in every
other case. -/
theorem calcRec_percentage_in_range (r : ResponseSet) :
    (calculate_course_recommendation r).2.1 ≤ 99
      ∧ (calculate_course_recommendation r).2.1
          = (if maxScore (scoresOf r) = 0 then 60
             else min (maxScore (scoresOf r) * 100 / totalPossible) 99) := by
  by_cases h : maxScore (scoresOf r) = 0 <;>
    simp [calculate_course_recommendation, matchPercentageOf, h] <;> omega

/-- Claim C5: `calculate_course_recommendation` is a total function (the
embedding returns a value on every `ResponseSet`, mirroring that the
source raises on none), and its result is unchanged when every
unresolvable entry — unknown question id, value matching no option,
shape-mismatched value — is removed from the responses. -/
theorem calcRec_skips_unresolvable (r : ResponseSet) :
    calculate_course_recommendation r
      = calculate_course_recommendation (removeUnresolvable r) := by
  have hs : scoresOf (removeUnresolvable r) = scoresOf r :=
    Scores.ext_get fun t => scoresOf_removeUnresolvable r t
  exact (calc_congr hs).symm

/-- Claim C6: for a `multiple`-cardinality question answered with a list, each
occurrence in the list is resolved independently and its score vector
added: the entry's contribution is the sum of the per-occurrence
contributions, and in particular a value listed twice contributes twice
(no deduplication). -/
theorem calcRec_multiple_counts_each_occurrence
    (qid : String) (q : Question) (hq : findQuestion qid = some q)
    (hm : q.qtype = QType.multiple) (l : List String) (t : Track) :
    (entryDelta (qid, Answer.vList l)).get t
        = (l.map fun v => (optDelta q v).get t).sum
      ∧ ∀ v : String,
          (entryDelta (qid, Answer.vList [v, v])).get t
            = 2 * (optDelta q v).get t := by
  have key : ∀ l' : List String,
      (entryDelta (qid, Answer.vList l')).get t
        = (l'.map fun v => (optDelta q v).get t).sum := by
    intro l'
    unfold entryDelta applyEntry
    simp only [hq, hm]
    rw [foldl_addOption_get]
    simp [Scores.get_zero]
  refine ⟨key l, fun v => ?_⟩
  rw [key [v, v]]
  simp [List.map_cons]
  omega

/-- Witness for C6 at question `q3` and the duplicated value
`["python", "python"]`, evaluated on the data track. -/
theorem calcRec_multiple_counts_each_occurrence_witness :
    findQuestion "q3" = some (QUESTIONNAIRE_QUESTIONS.get ⟨2, by decide⟩)
      ∧ (QUESTIONNAIRE_QUESTIONS.get ⟨2, by decide⟩).qtype = QType.multiple
      ∧ (entryDelta ("q3", Answer.vList ["python", "python"])).get Track.data
          = ((["python", "python"].map fun v =>
              (optDelta (QUESTIONNAIRE_QUESTIONS.get ⟨2, by decide⟩) v).get
                Track.data)).sum :=
  ⟨by decide, by decide,
    (calcRec_multiple_counts_each_occurrence "q3"
        (QUESTIONNAIRE_QUESTIONS.get ⟨2, by decide⟩) (by decide) (by decide)
        ["python", "python"] Track.data).1⟩

/-- Claim C7: extending a response set with one additional answer under a
question id not already keyed never decreases any track's accumulated
score (each entry's contribution is a vector of naturals). -/
theorem calcRec_added_answer_monotone (r : ResponseSet) (qid : String)
    (a : Answer) (hk : qid ∉ r.map Prod.fst) (t : Track) :
    (scoresOf r).get t ≤ (scoresOf (r ++ [(qid, a)])).get t := by
  rw [scoresOf_append_get]
  exact Nat.le_add_right _ _

/-- Witness for C7: adding `q4 = protecting_systems` to a response set
answering only `q1` does not decrease the cyber track's score. -/
theorem calcRec_added_answer_monotone_witness :
    "q4" ∉ ([("q1", Answer.vStr "advanced")] : ResponseSet).map Prod.fst
      ∧ (scoresOf [("q1", Answer.vStr "advanced")]).get Track.cyber
          ≤ (scoresOf ([("q1", Answer.vStr "advanced")]
              ++ [("q4", Answer.vStr "protecting_systems")])).get Track.cyber :=
  ⟨by decide,
    calcRec_added_answer_monotone [("q1", Answer.vStr "advanced")] "q4"
      (Answer.vStr "protecting_systems") (by decide) Track.cyber⟩

/-- Claim C8: `calculate_course_recommendation` is deterministic — the embedding
is a pure function of the response set and of the static question bank
(the source reads only its immutable module-level tables and performs no
I/O), so two invocations on the same `ResponseSet` return the identical
`(track, percentage, scores)` tuple. -/
theorem calcRec_deterministic (r : ResponseSet) :
    calculate_course_recommendation r = calculate_course_recommendation r :=
  rfl

/-- Claim C9 counterexample: the token `"a\n"` contains the character `'\n'`,
which is outside `[A-Za-z0-9_-]`, is nonempty and within the length
bound — yet it passes the format validation of `questionnaire_results`
(Python `$` also matches before a single trailing newline) and reaches
the persistence-store query, contradicting the claim that every such
token is rejected before any query. -/
theorem token_guard_trailing_newline_accepted :
    questionnaire_results_guard "a\n" = TokenLookup.storeQuery "a\n"
      ∧ '\n' ∈ "a\n".data ∧ tokenChar '\n' = false
      ∧ "a\n" ≠ "" ∧ "a\n".length ≤ 100 := by decide

/-- Claim C9, amended: a lookup token that is empty, or longer than 100
characters, or contains a character outside `[A-Za-z0-9_-]` anywhere
other than as a single trailing newline, is rejected by the format
validation of `questionnaire_results` before any query against the
persistence store, and surfaced as a not-found (404) outcome; the sole
exception, forced by Python's `$` semantics, is a valid token followed by
one final newline, which passes the format check. -/
theorem token_guard_rejects_malformed (s : String)
    (h : s = "" ∨ 100 < s.length
        ∨ (∃ c ∈ s.data.dropLast, tokenChar c = false)
        ∨ (∃ c ∈ s.data, s.data.getLast? = some c ∧ tokenChar c = false
            ∧ c ≠ '\n')
        ∨ (s.data.getLast? = some '\n' ∧ s.data.dropLast = [])) :
    questionnaire_results_guard s = TokenLookup.notFound := by
  unfold questionnaire_results_guard
  rcases h with h | h | ⟨c, hc, hbad⟩ | ⟨c, hmem, hl, hbad, hne⟩ | ⟨hl, hd⟩
  · subst h; rfl
  · have hb : decide (100 < s.length) = true := decide_eq_true h
    simp [hb]
  · simp [pyMatchToken_false_of_bad_dropLast hc hbad]
  · simp [pyMatchToken_false_of_bad_last hl hbad hne]
  · simp [pyMatchToken_false_of_lone_newline hl hd]

/-- Witness for the amended C9 at the token `"a b"` (interior space). -/
theorem token_guard_rejects_malformed_witness :
    (("a b" : String) = "" ∨ 100 < ("a b" : String).length
        ∨ (∃ c ∈ ("a b" : String).data.dropLast, tokenChar c = false)
        ∨ (∃ c ∈ ("a b" : String).data,
            ("a b" : String).data.getLast? = some c ∧ tokenChar c = false
              ∧ c ≠ '\n')
        ∨ (("a b" : String).data.getLast? = some '\n'
            ∧ ("a b" : String).data.dropLast = []))
      ∧ questionnaire_results_guard "a b" = TokenLookup.notFound :=
  ⟨by decide, token_guard_rejects_malformed "a b" (by decide)⟩

/-- Claim C10: an entry whose value shape contradicts its question's declared
cardinality — a plain string for a `multiple` question, or a list for a
`single` question — contributes the zero vector to every track and leaves
the result of `calculate_course_recommendation` unchanged (and the
embedding is total, mirroring that the source does not raise). -/
theorem calcRec_shape_mismatch_ignored (r : ResponseSet) (qid : String)
    (q : Question) (hq : findQuestion qid = some q) (a : Answer)
    (h : (q.qtype = QType.multiple ∧ ∃ v, a = Answer.vStr v)
        ∨ (q.qtype = QType.single ∧ ∃ l, a = Answer.vList l)) :
    entryDelta (qid, a) = Scores.mk 0 0 0
      ∧ calculate_course_recommendation (r ++ [(qid, a)])
          = calculate_course_recommendation r := by
  have hd : entryDelta (qid, a) = Scores.mk 0 0 0 := by
    unfold entryDelta applyEntry
    rcases h with ⟨hm, v, rfl⟩ | ⟨hs, l, rfl⟩
    · simp [hq, hm]
    · simp [hq, hs]
  refine ⟨hd, ?_⟩
  apply calc_congr
  apply Scores.ext_get
  intro t
  rw [scoresOf_append_get]
  have h0 : (scoresOf [(qid, a)]).get t = 0 := by
    rw [scoresOf_get]
    simp [hd, Scores.get_zero]
  rw [h0, Nat.add_zero]

/-- Witness for C10: the `multiple` question `q3` answered with the plain
string `"python"` contributes nothing. -/
theorem calcRec_shape_mismatch_ignored_witness :
    findQuestion "q3" = some (QUESTIONNAIRE_QUESTIONS.get ⟨2, by decide⟩)
      ∧ ((QUESTIONNAIRE_QUESTIONS.get ⟨2, by decide⟩).qtype = QType.multiple
          ∧ ∃ v, Answer.vStr "python" = Answer.vStr v)
      ∧ entryDelta ("q3", Answer.vStr "python") = Scores.mk 0 0 0
      ∧ calculate_course_recommendation ([] ++ [("q3", Answer.vStr "python")])
          = calculate_course_recommendation [] :=
  ⟨by decide, ⟨by decide, "python", rfl⟩,
    calcRec_shape_mismatch_ignored [] "q3"
      (QUESTIONNAIRE_QUESTIONS.get ⟨2, by decide⟩) (by decide)
      (Answer.vStr "python") (Or.inl ⟨by decide, "python", rfl⟩)⟩

end Upscale
